import Mathlib

/-!
Verification of the Palindrome Toolkit (`src/palindrome_app.py`).

Strings are modelled as `List Char`.  The stripping regex `[^a-zA-Z0-9]`
in `is_palindrome` is ASCII by definition and is modelled exactly.
Python's `str.lower` is string-level and not length-preserving: it is
modelled by `pyLower`, a per-character expansion covering ASCII, the
Latin-1 uppercase letters, and `'İ'` (U+0130), the code point whose
lowercase is two characters; characters outside this fragment are left
unchanged.  Python's `str.isalnum` is modelled by its ASCII fragment
`pyStrIsAlnum`; the theorems that rely on it either restrict their inputs
to ASCII (where the model agrees with Python exactly) or evaluate it only
at characters on which it agrees with Python.
-/

abbrev Str := List Char

/-- The character class `[a-zA-Z0-9]` of the stripping regex in
`is_palindrome`, which is also the ASCII fragment of Python's `isalnum`. -/
def isAsciiAlnum (c : Char) : Bool :=
  decide ((97 ≤ c.toNat ∧ c.toNat ≤ 122) ∨ (65 ≤ c.toNat ∧ c.toNat ≤ 90) ∨
    (48 ≤ c.toNat ∧ c.toNat ≤ 57))

/-- ASCII lowercasing of a single character: `A`–`Z` map to `a`–`z`, every
other character is unchanged.  This is exactly what Python's `str.lower`
does to an ASCII character. -/
def pyToLower (c : Char) : Char :=
  if 65 ≤ c.toNat ∧ c.toNat ≤ 90 then Char.ofNat (c.toNat + 32) else c

/-- Python `str.lower` for one character, as the list of characters it maps
to.  Modelled fragment: ASCII `A`–`Z`, `'İ'` (U+0130, the code point whose
lowercase is longer than itself: `'i'` followed by combining dot above
U+0307), and the Latin-1 uppercase letters `À`–`Þ` (U+00D7 excluded);
characters outside the fragment are left unchanged. -/
def pyLowerChar (c : Char) : Str :=
  if c.toNat = 304 then [Char.ofNat 105, Char.ofNat 775]
  else if 65 ≤ c.toNat ∧ c.toNat ≤ 90 then [Char.ofNat (c.toNat + 32)]
  else if 192 ≤ c.toNat ∧ c.toNat ≤ 222 ∧ c.toNat ≠ 215 then [Char.ofNat (c.toNat + 32)]
  else [c]

/-- Python `str.lower` on a string: concatenation of the per-character
lowercase expansions.  Not length-preserving in general (`'İ'`). -/
def pyLower (s : Str) : Str := s.flatMap pyLowerChar

/-- Line 36: `re.sub(r'[^a-zA-Z0-9]', '', s)` removes every character that
is not an ASCII letter or digit. -/
def strip_non_alnum (s : Str) : Str := s.filter isAsciiAlnum

/-- Python `s.isalnum()`: `s` is non-empty and every character of `s` is
alphanumeric. -/
def pyStrIsAlnum (s : Str) : Bool := !s.isEmpty && s.all isAsciiAlnum

/-- Python `range(a, b)` as the list of integers `a, a+1, ..., b-1`. -/
def pyRange (a b : Int) : List Int :=
  (List.range (b - a).toNat).map (fun (k : Nat) => a + (k : Int))

/-- Python slice `s[i:j]` (step 1), with Python's normalisation of negative
and out-of-range endpoints. -/
def pySlice (s : Str) (i j : Int) : Str :=
  let n : Int := (s.length : Int)
  let i' := if i < 0 then max (n + i) 0 else min i n
  let j' := if j < 0 then max (n + j) 0 else min j n
  (s.drop i'.toNat).take (j' - i').toNat

/-- Decimal digits of a natural number, most significant first.  The fuel
argument bounds the recursion depth; `n + 1` is always enough fuel. -/
def natToStrAux : Nat → Nat → Str
  | 0, _ => []
  | fuel + 1, n =>
    if n < 10 then [Char.ofNat (48 + n)]
    else natToStrAux fuel (n / 10) ++ [Char.ofNat (48 + n % 10)]

/-- Python `str(n)` for a natural number. -/
def natToStr (n : Nat) : Str := natToStrAux (n + 1) n

/-- Python `str(n)` for an integer: the decimal digits, with a leading `-`
for negative numbers. -/
def pyIntStr (n : Int) : Str :=
  if n < 0 then '-' :: natToStr n.natAbs else natToStr n.toNat

/-- Lines 8–42: `is_palindrome(text, ignore_case, ignore_spaces)`.  Empty
input returns `False`; otherwise the text is optionally stripped of
non-alphanumerics, optionally lowercased, and compared with its reversal. -/
def is_palindrome (text : Str) (ignore_case ignore_spaces : Bool) : Bool :=
  if text = [] then false
  else
    let processed := if ignore_spaces then strip_non_alnum text else text
    let processed2 := if ignore_case then pyLower processed else processed
    processed2 == processed2.reverse

/-- Lines 45–62: `is_number_palindrome(number)` for an integer argument:
`str(number)` compared with its reversal. -/
def is_number_palindrome_int (number : Int) : Bool :=
  let num_str := pyIntStr number
  num_str == num_str.reverse

/-- Lines 45–62: `is_number_palindrome(number)` for a string argument;
Python's `str` of a string is the string itself. -/
def is_number_palindrome_str (number : Str) : Bool :=
  let num_str := number
  num_str == num_str.reverse

/-- Lines 65–84: `is_strict_palindrome(text)`: empty input returns `False`,
otherwise the text is compared with its reversal with no normalisation. -/
def is_strict_palindrome (text : Str) : Bool :=
  if text = [] then false
  else text == text.reverse

/-- Lines 87–116: `find_palindromes(text, min_length)`.  The Python `set` is
modelled as the list of inserted substrings: the properties checked below
are membership properties, which de-duplication does not change. -/
def find_palindromes (text : Str) (min_length : Int) : List Str :=
  if text = [] ∨ (text.length : Int) < min_length then []
  else
    let text_lower := pyLower text
    let n : Int := (text_lower.length : Int)
    (pyRange 0 n).flatMap (fun i =>
      ((pyRange (i + min_length) (n + 1)).filter (fun j =>
        let substring := pySlice text_lower i j
        pyStrIsAlnum substring && substring == substring.reverse)).map
        (fun j => pySlice text i j))

/-- Lines 119–139: `generate_palindrome(word)` returns `word + word[-2::-1]`;
the slice `word[-2::-1]` is the reverse of all but the last character. -/
def generate_palindrome (word : Str) : Str :=
  if word = [] then []
  else word ++ (word.take (word.length - 1)).reverse

/-- Lines 142–162: `generate_palindrome_symmetric(word)`: the same
transformation, with a defensive special case for words of length ≤ 1. -/
def generate_palindrome_symmetric (word : Str) : Str :=
  if word = [] then []
  else if word.length > 1 then word ++ (word.take (word.length - 1)).reverse
  else word

/-- The normalisation pipeline of `is_palindrome` with both options enabled
(lines 34–39): strip non-alphanumerics, then lowercase. -/
def normalize_text (s : Str) : Str := pyLower (strip_non_alnum s)

/-! ### Character-level lemmas -/

/-- Evaluation of `Char.ofNat` at a valid code point. -/
theorem toNat_ofNat_valid (n : Nat) (h : n.isValidChar) : (Char.ofNat n).toNat = n := by
  unfold Char.ofNat
  rw [dif_pos h]
  rfl

/-- Lowercasing preserves membership in the class `[a-zA-Z0-9]`. -/
theorem isAsciiAlnum_pyToLower (c : Char) :
    isAsciiAlnum (pyToLower c) = isAsciiAlnum c := by
  unfold pyToLower
  split
  · rename_i h
    have hv : (c.toNat + 32).isValidChar := Or.inl (by omega)
    have h32 := toNat_ofNat_valid _ hv
    simp only [isAsciiAlnum, h32, decide_eq_decide]
    omega
  · rfl

/-- ASCII lowercasing is idempotent. -/
theorem pyToLower_pyToLower (c : Char) : pyToLower (pyToLower c) = pyToLower c := by
  unfold pyToLower
  split
  · rename_i h
    have hv : (c.toNat + 32).isValidChar := Or.inl (by omega)
    have h32 := toNat_ofNat_valid _ hv
    rw [if_neg (by omega)]
  · rfl

/-- Characters of the class `[a-zA-Z0-9]` are ASCII. -/
theorem toNat_le_of_isAsciiAlnum (c : Char) (h : isAsciiAlnum c = true) :
    c.toNat ≤ 127 := by
  simp only [isAsciiAlnum, decide_eq_true_eq] at h
  omega

/-- On an ASCII character, Python's lowercase expansion is the single ASCII
lowercased character. -/
theorem pyLowerChar_ascii (c : Char) (h : c.toNat ≤ 127) :
    pyLowerChar c = [pyToLower c] := by
  unfold pyLowerChar pyToLower
  rw [if_neg (show ¬c.toNat = 304 by omega)]
  by_cases h1 : 65 ≤ c.toNat ∧ c.toNat ≤ 90
  · rw [if_pos h1, if_pos h1]
  · rw [if_neg h1, if_neg h1,
      if_neg (show ¬(192 ≤ c.toNat ∧ c.toNat ≤ 222 ∧ c.toNat ≠ 215) by omega)]

/-- On an all-ASCII string, Python's lowercasing is character-wise ASCII
lowercasing, in particular length-preserving. -/
theorem pyLower_eq_map (s : Str) :
    (∀ c ∈ s, c.toNat ≤ 127) → pyLower s = s.map pyToLower := by
  induction s with
  | nil => intro _; rfl
  | cons a tl ih =>
    intro h
    unfold pyLower at ih ⊢
    rw [List.flatMap_cons, pyLowerChar_ascii a (h a (List.mem_cons_self a tl)),
      List.map_cons, List.singleton_append]
    congr 1
    exact ih (fun c hc => h c (List.mem_cons_of_mem a hc))

/-! ### Normalisation lemmas -/

/-- A character survives the stripping regex exactly when it is an ASCII
letter or digit. -/
theorem mem_strip_non_alnum (s : Str) (c : Char) :
    c ∈ strip_non_alnum s ↔ c ∈ s ∧ isAsciiAlnum c = true :=
  List.mem_filter

/-- Stripping commutes with lowercasing. -/
theorem strip_map_lower (s : Str) :
    strip_non_alnum (s.map pyToLower) = (strip_non_alnum s).map pyToLower := by
  unfold strip_non_alnum
  have hfun : (isAsciiAlnum ∘ pyToLower) = isAsciiAlnum := by
    funext c
    simp only [Function.comp_apply]
    exact isAsciiAlnum_pyToLower c
  rw [List.filter_map, hfun]

/-- Stripping is idempotent. -/
theorem strip_non_alnum_idem (s : Str) :
    strip_non_alnum (strip_non_alnum s) = strip_non_alnum s := by
  unfold strip_non_alnum
  rw [List.filter_filter]
  simp

/-- Stripped text is all-ASCII, so Python's lowercasing acts on it
character-wise. -/
theorem pyLower_strip (s : Str) :
    pyLower (strip_non_alnum s) = (strip_non_alnum s).map pyToLower :=
  pyLower_eq_map _ (fun c hc =>
    toNat_le_of_isAsciiAlnum c ((mem_strip_non_alnum s c).mp hc).2)

/-- The full normalisation pipeline is idempotent. -/
theorem normalize_text_idem (s : Str) :
    normalize_text (normalize_text s) = normalize_text s := by
  unfold normalize_text
  have hA : ∀ c ∈ (strip_non_alnum s).map pyToLower, c.toNat ≤ 127 := by
    intro c hc
    obtain ⟨d, hd, rfl⟩ := List.mem_map.mp hc
    apply toNat_le_of_isAsciiAlnum
    rw [isAsciiAlnum_pyToLower]
    exact ((mem_strip_non_alnum s d).mp hd).2
  rw [pyLower_strip s, strip_map_lower (strip_non_alnum s), strip_non_alnum_idem s,
    pyLower_eq_map _ hA, List.map_map]
  congr 1
  funext c
  exact pyToLower_pyToLower c

/-- On non-empty input, `is_palindrome` with both options enabled compares
the normalised text with its reversal. -/
theorem is_palindrome_eq_normalize (s : Str) (h : s ≠ []) :
    is_palindrome s true true = (normalize_text s == (normalize_text s).reverse) := by
  unfold is_palindrome normalize_text
  rw [if_neg h]
  rfl

/-! ### `pyRange` and `pySlice` lemmas -/

/-- Membership in `pyRange a b` is the interval condition `a ≤ m < b`. -/
theorem mem_pyRange (a b m : Int) : m ∈ pyRange a b ↔ a ≤ m ∧ m < b := by
  unfold pyRange
  simp only [List.mem_map, List.mem_range]
  constructor
  · rintro ⟨k, hk, rfl⟩
    omega
  · rintro ⟨h1, h2⟩
    exact ⟨(m - a).toNat, by omega, by omega⟩

/-- Slicing commutes with a character-wise map. -/
theorem pySlice_map (f : Char → Char) (s : Str) (i j : Int) :
    pySlice (s.map f) i j = (pySlice s i j).map f := by
  unfold pySlice
  simp [List.map_take, List.map_drop]

/-- Length of an in-bounds slice. -/
theorem length_pySlice_of_bounds (s : Str) (i j : Int) (h0 : 0 ≤ i) (hij : i ≤ j)
    (hj : j ≤ (s.length : Int)) :
    ((pySlice s i j).length : Int) = j - i := by
  unfold pySlice
  simp only [List.length_take, List.length_drop]
  rw [if_neg (by omega), if_neg (by omega)]
  omega

/-! ### Decimal-string lemmas -/

/-- Every character produced by `natToStrAux` is a decimal digit. -/
theorem natToStrAux_digits (fuel n : Nat) :
    ∀ c ∈ natToStrAux fuel n, 48 ≤ c.toNat ∧ c.toNat ≤ 57 := by
  induction fuel generalizing n with
  | zero =>
    intro c hc
    simp [natToStrAux] at hc
  | succ fuel ih =>
    intro c hc
    unfold natToStrAux at hc
    split at hc
    · rename_i h
      simp only [List.mem_singleton] at hc
      subst hc
      rw [toNat_ofNat_valid _ (Or.inl (by omega))]
      omega
    · rw [List.mem_append] at hc
      rcases hc with hc | hc
      · exact ih (n / 10) c hc
      · simp only [List.mem_singleton] at hc
        subst hc
        rw [toNat_ofNat_valid _ (Or.inl (by omega))]
        omega

/-- The decimal string of a natural number is never empty. -/
theorem natToStr_ne_nil (n : Nat) : natToStr n ≠ [] := by
  unfold natToStr natToStrAux
  split
  · simp
  · simp

/-! ### Claim theorems -/

/-- C1: for every non-empty word `w`, the output of `generate_palindrome w`
is a palindrome under the strict (non-normalised) definition:
`is_strict_palindrome (generate_palindrome w) = true`. -/
theorem C1_generate_palindrome_is_strict (w : Str) (h : w ≠ []) :
    is_strict_palindrome (generate_palindrome w) = true := by
  rcases List.eq_nil_or_concat w with rfl | ⟨L, b, rfl⟩
  · exact absurd rfl h
  · have hTake : (L.concat b).take ((L.concat b).length - 1) = L := by
      simp [List.concat_eq_append, List.take_left]
    have hgen : generate_palindrome (L.concat b) = (L ++ [b]) ++ L.reverse := by
      unfold generate_palindrome
      rw [if_neg h, hTake, List.concat_eq_append]
    rw [hgen]
    unfold is_strict_palindrome
    rw [if_neg (by simp)]
    simp [List.reverse_append, List.append_assoc]

/-- Witness for C1 at the concrete word `"ab"`. -/
theorem C1_witness :
    (['a', 'b'] : Str) ≠ [] ∧
      is_strict_palindrome (generate_palindrome ['a', 'b']) = true :=
  ⟨by decide, C1_generate_palindrome_is_strict ['a', 'b'] (by decide)⟩

/-- C4: the defensive length-≤-1 special case in the symmetric variant never
changes the result: `generate_palindrome_symmetric` agrees with
`generate_palindrome` on every word, lengths 0 and 1 included. -/
theorem C4_symmetric_eq_base (w : Str) :
    generate_palindrome_symmetric w = generate_palindrome w := by
  match w with
  | [] => rfl
  | [c] => rfl
  | a :: b :: t =>
    have hne : (a :: b :: t : Str) ≠ [] := by simp
    have hlen : (a :: b :: t : Str).length > 1 := by
      simp only [List.length_cons]
      omega
    unfold generate_palindrome_symmetric generate_palindrome
    rw [if_neg hne, if_neg hne, if_pos hlen]

/-- C7: the empty string is never a palindrome under either check:
`is_palindrome` returns `false` on `[]` for all four option combinations,
and so does `is_strict_palindrome`. -/
theorem C7_empty_never_palindrome :
    (∀ ic isp : Bool, is_palindrome [] ic isp = false) ∧
      is_strict_palindrome [] = false := by
  decide

/-- C8: totality: each of the operations, embedded as a total Lean function,
returns a value of its stated result type for every input string, every pair
of boolean options, every integer number and every integer threshold. -/
theorem C8_operations_total (t s w : Str) (ic isp : Bool) (n k : Int) :
    (∃ b : Bool, is_palindrome t ic isp = b) ∧
      (∃ b : Bool, is_number_palindrome_int n = b) ∧
      (∃ b : Bool, is_number_palindrome_str s = b) ∧
      (∃ b : Bool, is_strict_palindrome t = b) ∧
      (∃ r : List Str, find_palindromes t k = r) ∧
      (∃ g : Str, generate_palindrome w = g) ∧
      (∃ g : Str, generate_palindrome_symmetric w = g) :=
  ⟨⟨_, rfl⟩, ⟨_, rfl⟩, ⟨_, rfl⟩, ⟨_, rfl⟩, ⟨_, rfl⟩, ⟨_, rfl⟩, ⟨_, rfl⟩⟩

/-- C10: for every non-empty word `w`, `generate_palindrome w` has length
exactly `2 * |w| - 1` and has `w` as a prefix (the input word is preserved
verbatim at the start of the output). -/
theorem C10_generate_length_and_starts_with (w : Str) (h : w ≠ []) :
    (generate_palindrome w).length = 2 * w.length - 1 ∧
      (generate_palindrome w).take w.length = w := by
  unfold generate_palindrome
  rw [if_neg h]
  have hpos : 0 < w.length := List.length_pos.mpr h
  constructor
  · simp only [List.length_append, List.length_reverse, List.length_take]
    omega
  · exact List.take_left w _

/-- Witness for C10 at the concrete word `"abc"`. -/
theorem C10_witness :
    (generate_palindrome ['a', 'b', 'c']).length = 2 * (['a', 'b', 'c'] : Str).length - 1 ∧
      (generate_palindrome ['a', 'b', 'c']).take (['a', 'b', 'c'] : Str).length = ['a', 'b', 'c'] :=
  C10_generate_length_and_starts_with ['a', 'b', 'c'] (by decide)

/-- C2 counterexample: for `s = "!"`, calling `is_palindrome` directly gives
`true` (the stripped text is empty and equals its own reversal), but
normalising `s` first gives the empty string, for which `is_palindrome`
returns `false`.  The claimed equality fails at this input. -/
theorem C2_counterexample :
    is_palindrome (normalize_text ['!']) true true ≠ is_palindrome ['!'] true true := by
  decide

/-- C2 amended: for every string `s` that is empty or whose normalisation
(strip non-alphanumerics, then lowercase) is non-empty, normalising first
yields the same verdict as calling `is_palindrome` with both options enabled
directly; only non-empty strings with no ASCII-alphanumeric character are
excluded, where the direct call yields `true` and the pre-normalised call
yields `false`. -/
theorem C2_normalization_idempotent_verdict (s : Str)
    (h : s = [] ∨ normalize_text s ≠ []) :
    is_palindrome (normalize_text s) true true = is_palindrome s true true := by
  rcases h with rfl | h
  · rfl
  · have hs : s ≠ [] := by
      intro he
      subst he
      exact h rfl
    rw [is_palindrome_eq_normalize s hs, is_palindrome_eq_normalize (normalize_text s) h,
      normalize_text_idem]

/-- Witness for the amended C2 at the concrete string `"aba"`. -/
theorem C2_witness :
    ((['a', 'b', 'a'] : Str) = [] ∨ normalize_text ['a', 'b', 'a'] ≠ []) ∧
      is_palindrome (normalize_text ['a', 'b', 'a']) true true =
        is_palindrome ['a', 'b', 'a'] true true :=
  ⟨Or.inr (by decide),
    C2_normalization_idempotent_verdict ['a', 'b', 'a'] (Or.inr (by decide))⟩

/-- C3 counterexample: the non-ASCII letter `'é'` occurs in the input
`"aéa"`, yet after stripping it is no longer present in the text used for
the comparison — the regex `[^a-zA-Z0-9]` removes non-ASCII letters rather
than leaving them in place. -/
theorem C3_counterexample :
    'é' ∈ (['a', 'é', 'a'] : Str) ∧
      'é' ∉ strip_non_alnum ['a', 'é', 'a'] ∧
      'é' ∉ normalize_text ['a', 'é', 'a'] := by
  decide

/-- C3 amended: stripping removes exactly the characters that are not ASCII
letters or digits — a character is present in the stripped text iff it is
present in the input and lies in the class `[a-zA-Z0-9]`; consequently
non-ASCII letters are removed, not kept. -/
theorem C3_strip_exactly_ascii_alnum (s : Str) (c : Char) :
    c ∈ strip_non_alnum s ↔ c ∈ s ∧ isAsciiAlnum c = true :=
  List.mem_filter

/-- C9: every non-empty text all of whose characters are non-alphanumeric
strips to the empty string, which equals its own reversal, so
`is_palindrome` with stripping enabled returns `true` for either case
option — in contrast to the literal empty input, which returns `false`. -/
theorem C9_non_alnum_text_is_palindrome (t : Str) (ic : Bool) (h1 : t ≠ [])
    (h2 : ∀ c ∈ t, isAsciiAlnum c = false) :
    is_palindrome t ic true = true ∧ is_palindrome [] ic true = false := by
  constructor
  · unfold is_palindrome
    rw [if_neg h1]
    have hstrip : strip_non_alnum t = [] := by
      unfold strip_non_alnum
      rw [List.filter_eq_nil_iff]
      intro c hc
      simp [h2 c hc]
    rw [hstrip]
    cases ic <;> rfl
  · cases ic <;> rfl

/-- Witness for C9 at the concrete text `"!!!"`, for both case options. -/
theorem C9_witness :
    is_palindrome ['!', '!', '!'] true true = true ∧
      is_palindrome ['!', '!', '!'] false true = true :=
  ⟨(C9_non_alnum_text_is_palindrome ['!', '!', '!'] true (by decide) (by decide)).1,
    (C9_non_alnum_text_is_palindrome ['!', '!', '!'] false (by decide) (by decide)).1⟩

/-- C5 counterexample: Python's `str.lower` expands `'İ'` (U+0130) to two
characters, so the lowered text is longer than the original and the indices
of the two go out of step.  `find_palindromes "aİbb" 2` tests the lowered
slice at positions 3–5 (`"bb"`, an alphanumeric palindrome) but extracts
`text[3:5] = "b"`, an element of length 1 < 2; likewise
`find_palindromes "İb!b" 1` extracts the non-alphanumeric element `"!"`
(lowered position 2 is `'b'`, original position 2 is `'!'`).  Every
character involved lowercases and classifies exactly as in Python. -/
theorem C5_counterexample :
    ((['b'] : Str) ∈ find_palindromes ['a', 'İ', 'b', 'b'] 2 ∧
      ¬(2 ≤ (((['b'] : Str).length : Int)))) ∧
      ((['!'] : Str) ∈ find_palindromes ['İ', 'b', '!', 'b'] 1 ∧
        ¬(∀ c ∈ (['!'] : Str), isAsciiAlnum c = true)) := by
  decide

/-- C5 amended: for every text `t` consisting only of ASCII characters and
every threshold `k`, every element of `find_palindromes t k` has length at
least `k` and consists only of alphanumeric characters.  (On ASCII text,
lowercasing is character-wise, so the lowered text stays aligned with the
original; texts containing `'İ'` falsify the unrestricted claim.) -/
theorem C5_find_palindromes_ascii_sound (t : Str) (k : Int) (x : Str)
    (hA : ∀ c ∈ t, c.toNat ≤ 127) (hx : x ∈ find_palindromes t k) :
    k ≤ (x.length : Int) ∧ ∀ c ∈ x, isAsciiAlnum c = true := by
  have hlow : pyLower t = t.map pyToLower := pyLower_eq_map t hA
  unfold find_palindromes at hx
  split at hx
  · simp at hx
  · simp only [hlow, List.mem_flatMap, List.mem_map, List.mem_filter] at hx
    obtain ⟨i, hi, j, ⟨hj, hcond⟩, rfl⟩ := hx
    have hi' : 0 ≤ i ∧ i < (t.length : Int) := by
      have hmem := (mem_pyRange 0 ((t.map pyToLower).length : Int) i).mp hi
      simpa using hmem
    have hj' : i + k ≤ j ∧ j < (t.length : Int) + 1 := by
      have hmem := (mem_pyRange (i + k) (((t.map pyToLower).length : Int) + 1) j).mp hj
      simpa using hmem
    rw [pySlice_map pyToLower t i j, Bool.and_eq_true] at hcond
    obtain ⟨halnum, _⟩ := hcond
    unfold pyStrIsAlnum at halnum
    rw [Bool.and_eq_true, List.all_eq_true] at halnum
    obtain ⟨_, hall⟩ := halnum
    constructor
    · by_cases hk : k ≤ 0
      · have hnn : (0 : Int) ≤ ((pySlice t i j).length : Int) := Int.ofNat_nonneg _
        omega
      · push_neg at hk
        have hlen := length_pySlice_of_bounds t i j hi'.1 (by omega) (by omega)
        omega
    · intro c hc
      have hlc := hall (pyToLower c) (List.mem_map_of_mem pyToLower hc)
      rwa [isAsciiAlnum_pyToLower] at hlc

/-- Witness for the amended C5: `"aba"` is an all-ASCII text, `"aba"` itself
is found in it with threshold 3, and it has length ≥ 3 and only
alphanumeric characters. -/
theorem C5_witness :
    ((∀ c ∈ (['a', 'b', 'a'] : Str), c.toNat ≤ 127) ∧
      (['a', 'b', 'a'] : Str) ∈ find_palindromes ['a', 'b', 'a'] 3) ∧
      (3 ≤ ((['a', 'b', 'a'] : Str).length : Int) ∧
        ∀ c ∈ (['a', 'b', 'a'] : Str), isAsciiAlnum c = true) :=
  ⟨⟨by decide, by decide⟩,
    C5_find_palindromes_ascii_sound ['a', 'b', 'a'] 3 ['a', 'b', 'a'] (by decide) (by decide)⟩

/-- C6: `is_number_palindrome` converts its argument to its canonical
decimal string — `str(n)` for an integer (sign included, no normalisation),
the string itself for a string argument — and returns whether that string
equals its own reversal; for every negative integer the leading minus sign
participates and the result is `false`. -/
theorem C6_number_canonical_and_negative (n : Int) (s : Str) :
    is_number_palindrome_int n = (pyIntStr n == (pyIntStr n).reverse) ∧
      is_number_palindrome_str s = (s == s.reverse) ∧
      (n < 0 → is_number_palindrome_int n = false) := by
  refine ⟨rfl, rfl, fun hneg => ?_⟩
  unfold is_number_palindrome_int pyIntStr
  rw [if_pos hneg, beq_eq_false_iff_ne]
  intro heq
  rcases List.eq_nil_or_concat (natToStr n.natAbs) with hnil | ⟨L, d, hLd⟩
  · exact natToStr_ne_nil n.natAbs hnil
  · have hdmem : d ∈ natToStr n.natAbs := by
      rw [hLd]
      simp [List.concat_eq_append]
    have hd : 48 ≤ d.toNat ∧ d.toNat ≤ 57 :=
      natToStrAux_digits (n.natAbs + 1) n.natAbs d hdmem
    rw [hLd, List.concat_eq_append, List.reverse_cons, List.reverse_append] at heq
    simp only [List.reverse_singleton, List.cons_append, List.nil_append,
      List.cons.injEq] at heq
    have hdash : d.toNat = 45 := by
      rw [← heq.1]
      decide
    omega

/-- Witness for C6 at the concrete negative integer `-121` and the concrete
decimal string `"121"`. -/
theorem C6_witness :
    is_number_palindrome_int (-121) = (pyIntStr (-121) == (pyIntStr (-121)).reverse) ∧
      is_number_palindrome_str ['1', '2', '1'] =
        ((['1', '2', '1'] : Str) == (['1', '2', '1'] : Str).reverse) ∧
      is_number_palindrome_int (-121) = false :=
  ⟨(C6_number_canonical_and_negative (-121) ['1', '2', '1']).1,
    (C6_number_canonical_and_negative (-121) ['1', '2', '1']).2.1,
    (C6_number_canonical_and_negative (-121) ['1', '2', '1']).2.2 (by decide)⟩
